import Mathlib

/-!
Shallow embedding of the core of the The-Seed agent loop
(src/the_seed/core: excution.py, fsm.py, blackboard.py, node/base.py,
node/review.py, node/action_gen.py) and proofs about the spec claims.

Python dictionaries, lists and scalar values are modelled by the mutual
inductive family `PyValue` / `PyList` / `PyFields`; fallible Python code
(attribute lookups, enum construction, list indexing, `exec`) is modelled
with `Except String`, the error string naming the Python exception.
The behaviour of `exec` on an arbitrary code string cannot be embedded, so
it is abstracted as an `ExecOutcome` oracle: either the code raised (with
the exception text) or it completed, leaving some value (or none) bound to
the output variable.
-/

mutual
inductive PyValue : Type where
  | pynone : PyValue
  | pybool : Bool → PyValue
  | pyint : Int → PyValue
  | pystr : String → PyValue
  | pylist : PyList → PyValue
  | pydict : PyFields → PyValue
inductive PyList : Type where
  | nil : PyList
  | cons : PyValue → PyList → PyList
inductive PyFields : Type where
  | fnil : PyFields
  | fcons : String → PyValue → PyFields → PyFields
end

/-- Keys of a Python dict, in insertion order (`result.keys()`). -/
def PyFields.keys : PyFields → List String
  | .fnil => []
  | .fcons k _ tl => k :: tl.keys

/-- Python `d.get(k)` / `d[k]` lookup. -/
def PyFields.get? : PyFields → String → Option PyValue
  | .fnil, _ => Option.none
  | .fcons k v tl, key => if k = key then some v else tl.get? key

/-- Python `d.get(k, default)`. -/
def PyFields.getD (d : PyFields) (key : String) (dflt : PyValue) : PyValue :=
  match d.get? key with
  | some v => v
  | Option.none => dflt

/-- Python truthiness of a value. -/
def pyTruthy : PyValue → Bool
  | .pynone => false
  | .pybool b => b
  | .pyint n => n != 0
  | .pystr s => s ≠ ""
  | .pylist .nil => false
  | .pylist _ => true
  | .pydict .fnil => false
  | .pydict _ => true

/-- Python truthiness of a dict (`if not step:` on a dict-typed value). -/
def pyFieldsTruthy : PyFields → Bool
  | .fnil => false
  | .fcons _ _ _ => true

mutual
/-- Python `repr` of a value (string quoting approximated without escapes). -/
def pyRepr : PyValue → String
  | .pynone => "None"
  | .pybool b => if b then "True" else "False"
  | .pyint n => toString n
  | .pystr s => "\x27" ++ s ++ "\x27"
  | .pylist xs => "[" ++ pyReprList xs ++ "]"
  | .pydict es => "\x7b" ++ pyReprFields es ++ "\x7d"
def pyReprList : PyList → String
  | .nil => ""
  | .cons v .nil => pyRepr v
  | .cons v tl => pyRepr v ++ ", " ++ pyReprList tl
def pyReprFields : PyFields → String
  | .fnil => ""
  | .fcons k v .fnil => "\x27" ++ k ++ "\x27: " ++ pyRepr v
  | .fcons k v tl => "\x27" ++ k ++ "\x27: " ++ pyRepr v ++ ", " ++ pyReprFields tl
end

/-- Python `str` of a value: identity on strings, `repr`-like elsewhere. -/
def pyStr : PyValue → String
  | .pystr s => s
  | v => pyRepr v

/-- ASCII lowercase of a character (Python `str.lower` on ASCII input). -/
def lowerChar (c : Char) : Char :=
  if c.isUpper then Char.ofNat (c.toNat + 32) else c

/-- ASCII uppercase of a character (Python `str.upper` on ASCII input). -/
def upperChar (c : Char) : Char :=
  if c.isLower then Char.ofNat (c.toNat - 32) else c

/-- Python `s.lower()`. -/
def lowerStr (s : String) : String := ⟨s.data.map lowerChar⟩

/-- Python `s.upper()`. -/
def upperStr (s : String) : String := ⟨s.data.map upperChar⟩

/-- Python whitespace test used by `str.strip()`. -/
def isSpaceChar (c : Char) : Bool :=
  c == ' ' || c == '\t' || c == '\n' || c == '\r' || c == '\x0b' || c == '\x0c'

/-- Python `s.strip()`. -/
def stripStr (s : String) : String :=
  ⟨((s.data.dropWhile isSpaceChar).reverse.dropWhile isSpaceChar).reverse⟩

/-- Substring search on character lists. -/
def charSub (pat : List Char) : List Char → Bool
  | [] => pat.isPrefixOf []
  | c :: tl => pat.isPrefixOf (c :: tl) || charSub pat tl

/-- Python `pat in s` substring containment. -/
def strContains (s pat : String) : Bool := charSub pat.data s.data

/-! ### Execution contract and executor — src/the_seed/core/excution.py -/

/--
ExecutionResult from excution.py: the structured outcome of one code run.
`raw_result` is the output mapping when one was found, `error` the error
string (`str(exc)` on an execution failure, a taxonomy label otherwise).
-/
structure ExecutionResult where
  success : Bool
  next_state : String
  player_message : String
  observations : String
  next_step_hint : String
  raw_result : Option PyFields
  error : Option String

/--
Outcome of `exec(code, globals, globals)` on a code string: either the code
raised an exception whose `str` is `msg`, or it completed and the output
variable `__result__` is bound (or not) in the final scope.  This is the
oracle that stands in for Python execution of an arbitrary string.
-/
inductive ExecOutcome : Type where
  | raises : String → ExecOutcome
  | completes : Option PyValue → ExecOutcome

/--
`PythonActionExecutor.REQUIRED_KEYS` as a Python set; listed here already in
the lexicographic order that `sorted(...)` produces, so that filtering this
list models `sorted(REQUIRED_KEYS - set(result.keys()))`.
-/
def REQUIRED_KEYS_sorted : List String :=
  ["next_state", "next_step_hint", "observations", "player_message"]

/-- `sorted(REQUIRED_KEYS - set(result.keys()))` for an output mapping. -/
def missingRequired (result : PyFields) : List String :=
  REQUIRED_KEYS_sorted.filter (fun k => !(result.keys.contains k))

/-- Python `repr` of a sorted list of strings, as interpolated in the
`__result__ missing keys:` message. -/
def pyReprStrList (l : List String) : String :=
  "[" ++ String.intercalate ", " (l.map (fun k => "\x27" ++ k ++ "\x27")) ++ "]"

/--
`PythonActionExecutor`: its only state is the `runtime_globals` mapping
injected into the execution scope (absorbed by the `ExecOutcome` oracle).
-/
structure PythonActionExecutor where
  runtime_globals : PyFields

/--
`PythonActionExecutor.execute` (excution.py lines 41-103), with the `exec`
call abstracted by the `ExecOutcome` oracle.  On a raised exception it
returns the failed result of lines 53-61; then it reads `__result__`,
failing with `missing_result` if absent or not a dict (lines 63-74), with
`result_missing_keys` if required keys are missing (lines 76-87), and
otherwise normalizes the four text fields into a success result
(lines 89-103).
-/
def PythonActionExecutor.execute (outcome : ExecOutcome) : ExecutionResult :=
  match outcome with
  | .raises msg =>
    { success := false
      next_state := "REVIEW"
      player_message := "python execution failed: " ++ msg
      observations := ""
      next_step_hint := "execution_error"
      raw_result := Option.none
      error := some msg }
  | .completes rv =>
    match rv with
    | some (.pydict result) =>
      if missingRequired result ≠ [] then
        { success := false
          next_state := "REVIEW"
          player_message := "__result__ missing keys: " ++ pyReprStrList (missingRequired result)
          observations := pyStr (.pydict result)
          next_step_hint := "result_missing_keys"
          raw_result := some result
          error := some "result_missing_keys" }
      else
        let ns0 := result.getD "next_state" (.pystr "")
        let ns := if pyTruthy ns0 then ns0 else .pystr ""
        { success := true
          next_state := upperStr (pyStr ns)
          player_message := pyStr (result.getD "player_message" (.pystr ""))
          observations := pyStr (result.getD "observations" (.pystr ""))
          next_step_hint := pyStr (result.getD "next_step_hint" (.pystr ""))
          raw_result := some result
          error := Option.none }
    | _ =>
      { success := false
        next_state := "REVIEW"
        player_message := "missing __result__ dict"
        observations := ""
        next_step_hint := "missing_result"
        raw_result := Option.none
        error := some "missing_result" }

/-- `ExecutionResult.to_dict` (excution.py lines 21-30). -/
def ExecutionResult.toDict (r : ExecutionResult) : PyFields :=
  .fcons "success" (.pybool r.success)
    (.fcons "next_state" (.pystr r.next_state)
      (.fcons "player_message" (.pystr r.player_message)
        (.fcons "observations" (.pystr r.observations)
          (.fcons "next_step_hint" (.pystr r.next_step_hint)
            (.fcons "raw_result"
              (match r.raw_result with
               | some d => .pydict d
               | Option.none => .pynone)
              (.fcons "error"
                (match r.error with
                 | some e => .pystr e
                 | Option.none => .pynone) .fnil))))))

/-! ### FSM state enum and driver — src/the_seed/core/fsm.py -/

/--
`FSMState` from fsm.py lines 14-21: a `str`-valued enum with exactly seven
members — `OBSERVE, PLAN, ACTION_GEN, REVIEW, COMMIT, STOP, DONE`.
The source defines no `NEED_USER` member.
-/
inductive FSMState : Type where
  | OBSERVE | PLAN | ACTION_GEN | REVIEW | COMMIT | STOP | DONE
deriving DecidableEq

/-- The `.value` string of each enum member. -/
def FSMState.value : FSMState → String
  | .OBSERVE => "observe"
  | .PLAN => "plan"
  | .ACTION_GEN => "action_gen"
  | .REVIEW => "review"
  | .COMMIT => "commit"
  | .STOP => "stop"
  | .DONE => "done"

/-- The enum member table: Python attribute name paired with the member. -/
def FSMState.members : List (String × FSMState) :=
  [("OBSERVE", .OBSERVE), ("PLAN", .PLAN), ("ACTION_GEN", .ACTION_GEN),
   ("REVIEW", .REVIEW), ("COMMIT", .COMMIT), ("STOP", .STOP), ("DONE", .DONE)]

/--
Python attribute access `FSMState.<name>.value`: succeeds for the seven
defined members and raises `AttributeError` otherwise.
-/
def fsmStateAttrValue (name : String) : Except String String :=
  match FSMState.members.find? (fun p => p.1 = name) with
  | some p => Except.ok p.2.value
  | Option.none => Except.error ("AttributeError: " ++ name)

/--
Enum construction by value, `FSMState(v)`: succeeds when `v` is the value
of a member and raises `ValueError` otherwise.
-/
def fsmStateOfValue (v : String) : Except String FSMState :=
  match FSMState.members.find? (fun p => p.2.value = v) with
  | some p => Except.ok p.2
  | Option.none => Except.error ("ValueError: " ++ v ++ " is not a valid FSMState")

/-! ### Blackboard — src/the_seed/core/blackboard.py -/

/--
The `Blackboard` dataclass (blackboard.py lines 10-41), with exactly the
fields its definition declares.  Plan steps and the various result payloads
are Python dicts (`PyFields`).
-/
structure Blackboard where
  intel : PyFields := .fnil
  events : PyList := .nil
  scratchpad : String := ""
  game_basic_state : String := ""
  game_detail_state : String := ""
  plan : List PyFields := []
  current_step : PyFields := .fnil
  step_index : Nat := 0
  python_script : String := ""
  action_result : PyFields := .fnil
  review : PyFields := .fnil
  commit : PyFields := .fnil
  last_outcome : PyFields := .fnil
  observation_requests : PyList := .nil
  db_buffer : PyList := .nil
  gameapi : PyValue := .pynone
  gameapi_rules : String := ""

/--
The attribute names a `Blackboard` instance has when constructed by its own
dataclass definition (no attributes attached from outside): exactly the
declared fields.  Python attribute lookup on any other name raises
`AttributeError`.
-/
def Blackboard.fieldNames : List String :=
  ["intel", "events", "scratchpad", "game_basic_state", "game_detail_state",
   "plan", "current_step", "step_index", "python_script", "action_result",
   "review", "commit", "last_outcome", "observation_requests", "db_buffer",
   "gameapi", "gameapi_rules"]

/-- `Blackboard.update_from_result` (blackboard.py lines 43-52). -/
def Blackboard.update_from_result (bb : Blackboard) (r : ExecutionResult) : Blackboard :=
  { bb with
    last_outcome := r.toDict
    scratchpad := bb.scratchpad ++
      "ActionNode observations=" ++ r.observations ++ "\n" ++
      "ActionNode next_step_hint=" ++ r.next_step_hint ++ "\n"
    action_result := r.toDict }

/-! ### FSM driver transition — fsm.py lines 46-64 -/

/--
The unconditional `current_step` recomputation at the end of
`FSM.transition` (fsm.py lines 60-64): `plan[min(step_index, len(plan)-1)]`
when the plan is non-empty, the empty dict otherwise.
-/
def recomputeCurrentStep (bb : Blackboard) : Blackboard :=
  if !bb.plan.isEmpty then
    { bb with current_step := bb.plan.getD (min bb.step_index (bb.plan.length - 1)) .fnil }
  else
    { bb with current_step := .fnil }

/--
`FSM.transition` (fsm.py lines 46-64).  The driver holds `state` and the
blackboard; a successful call returns the new state value and blackboard.
Note the comparison on line 49 is `nxt.lower() == "RUN"` — a lowercased
string against an uppercase literal — reproduced verbatim here.
An unknown token raises `ValueError` from the `FSMState(...)` constructor.
-/
def FSM.transition (state : String) (bb : Blackboard) (nxt : String) :
    Except String (String × Blackboard) :=
  if lowerStr nxt = "RUN" then
    let bb1 := { bb with step_index := bb.step_index + 1 }
    let ns := if bb1.plan.length ≤ bb1.step_index then FSMState.DONE.value
              else FSMState.ACTION_GEN.value
    Except.ok (ns, recomputeCurrentStep bb1)
  else
    match fsmStateOfValue (lowerStr nxt) with
    | Except.error e => Except.error e
    | Except.ok st => Except.ok (st.value, recomputeCurrentStep bb)

/-! ### Shared node helpers — src/the_seed/core/node/base.py -/

/--
`BaseNode._map_next_state` (base.py lines 49-63).  The Python body first
uppercases the request, then evaluates the `mapping` dict literal — whose
entries access `FSMState.<NAME>.value` one by one — before any lookup; an
entry whose attribute is undefined raises `AttributeError` out of the call.
-/
def mapNextState (requested : String) (error : Bool)
    (default_success : FSMState := .PLAN) (default_error : FSMState := .REVIEW) :
    Except String String :=
  let normalized := upperStr requested
  let mappingSpec : List (String × String) :=
    [("RUN", "ACTION_GEN"), ("OBSERVE", "OBSERVE"), ("PLAN", "PLAN"),
     ("REVIEW", "REVIEW"), ("COMMIT", "COMMIT"), ("NEED_USER", "NEED_USER"),
     ("STOP", "STOP")]
  match mappingSpec.mapM (fun p => (fsmStateAttrValue p.2).map (fun v => (p.1, v))) with
  | Except.error e => Except.error e
  | Except.ok mapping =>
    match mapping.find? (fun p => p.1 = normalized) with
    | some p => Except.ok p.2
    | Option.none =>
      Except.ok (if error then default_error.value else default_success.value)

/--
`BaseNode._build_executor` (base.py lines 66-68): reads the attribute
`runtime_globals` from the blackboard.  The `Blackboard` dataclass defines
no such field, so for an instance built by its own definition the lookup
raises `AttributeError`; the success branch is unreachable.
-/
def BaseNode.buildExecutor (bb : Blackboard) : Except String PythonActionExecutor :=
  if Blackboard.fieldNames.contains "runtime_globals" then
    Except.ok { runtime_globals := .fnil }
  else
    Except.error "AttributeError: Blackboard object has no attribute runtime_globals"

/--
`BaseNode._execute_code` (base.py lines 70-81): builds the executor from
the blackboard's `runtime_globals` attribute, strips code fences (absorbed
by the outcome oracle) and runs the executor on the code.
-/
def BaseNode.executeCode (bb : Blackboard) (code : String) (outcome : ExecOutcome) :
    Except String ExecutionResult :=
  match BaseNode.buildExecutor bb with
  | Except.error e => Except.error e
  | Except.ok _ex => Except.ok (PythonActionExecutor.execute outcome)

/-! ### Review node — src/the_seed/core/node/review.py -/

/-- One entry of the `issues` list built by `ReviewNode._local_precheck`. -/
structure Issue where
  severity : String
  kind : String
  msg : String

/-- The `banned` token list of `ReviewNode._local_precheck` (review.py line 21). -/
def bannedTokens : List String :=
  ["import ", "open(", "subprocess", "socket", "requests", "urllib",
   "thread", "multiprocessing", "os.system"]

/--
`ReviewNode._local_precheck` (review.py lines 16-29): scans the lowercased
code for each banned token in order, then checks for the `__result__`
marker; returns the `ok` flag (no high-severity issue found) and the issue
list.
-/
def localPrecheck (py : String) : Bool × List Issue :=
  let lowered := lowerStr py
  let bannedIssues :=
    (bannedTokens.filter (fun b => strContains lowered b)).map
      (fun b => Issue.mk "high" "safety" ("banned token detected: " ++ b))
  let issues := bannedIssues ++
    (if strContains py "__result__" then [] else [Issue.mk "high" "missing" "must set __result__"])
  (((issues.filter (fun i => i.severity == "high")).length == 0), issues)

/-- Encoding of an issue record as the Python dict the source builds. -/
def Issue.toPy (i : Issue) : PyValue :=
  .pydict (.fcons "severity" (.pystr i.severity)
    (.fcons "kind" (.pystr i.kind)
      (.fcons "msg" (.pystr i.msg) .fnil)))

/-- Encoding of an issue list as a Python list of dicts. -/
def encodeIssues : List Issue → PyList
  | [] => .nil
  | i :: tl => .cons i.toPy (encodeIssues tl)

/-- `NodeOutput` (base.py lines 18-21): next-state token plus payload dict. -/
structure NodeOutput where
  next_state : String
  payload : PyFields

/--
Result of one node `run` call: the returned `NodeOutput` (or the exception
that escaped the call), the blackboard after the call, and whether control
reached the `_execute_code` helper.
-/
structure NodeRunResult where
  res : Except String NodeOutput
  bb : Blackboard
  attemptedExec : Bool

/-- Payload `{"python": script, "execution": exec_result.to_dict()}`. -/
def execPayload (script : String) (r : ExecutionResult) : PyFields :=
  .fcons "python" (.pystr script) (.fcons "execution" (.pydict r.toDict) .fnil)

/--
`ReviewNode.run` (review.py lines 31-71).  The model response text is the
`respText` oracle; the outcome of executing the patched code is the
`outcome` oracle.  Missing prior code returns ACTION_GEN; an empty patch
response returns PLAN with an error payload; a failed precheck stores the
review dict and returns PLAN without reaching `_execute_code`; otherwise
the patched code is stored and executed, the result folded into the
blackboard, and the next state mapped via `_map_next_state`.
-/
def ReviewNode.run (bb : Blackboard) (respText : String) (outcome : ExecOutcome) :
    NodeRunResult :=
  let last_code := bb.python_script
  if stripStr last_code = "" then
    ⟨Except.ok ⟨FSMState.ACTION_GEN.value, .fnil⟩, bb, false⟩
  else
    let patched_code := stripStr respText
    if patched_code = "" then
      ⟨Except.ok ⟨FSMState.PLAN.value, .fcons "error" (.pystr "empty_review_python") .fnil⟩,
       bb, false⟩
    else
      let pre := localPrecheck patched_code
      let bb1 := { bb with
        review := .fcons "issues" (.pylist (encodeIssues pre.2))
                    (.fcons "patched" (.pybool true) .fnil) }
      if pre.1 = false then
        ⟨Except.ok ⟨FSMState.PLAN.value, .fcons "review" (.pydict bb1.review) .fnil⟩,
         bb1, false⟩
      else
        let bb2 := { bb1 with python_script := patched_code }
        match BaseNode.executeCode bb2 patched_code outcome with
        | Except.error e => ⟨Except.error e, bb2, true⟩
        | Except.ok r =>
          let bb3 := bb2.update_from_result r
          match mapNextState r.next_state (r.error ≠ Option.none) with
          | Except.error e => ⟨Except.error e, bb3, true⟩
          | Except.ok ns => ⟨Except.ok ⟨ns, execPayload patched_code r⟩, bb3, true⟩

/-! ### ActionGen node — src/the_seed/core/node/action_gen.py -/

/--
`ActionGenNode.run` (action_gen.py lines 20-59).  Line 23 reads
`bb.plan[bb.step_index]` — Python list indexing, which raises `IndexError`
when the index is out of range (in particular whenever the plan is empty) —
before the emptiness test `if not step` ever runs.  A falsy step returns
PLAN; an empty model response returns PLAN with an error payload; otherwise
the script is stored and handed to `_execute_code`.
-/
def ActionGenNode.run (bb : Blackboard) (respText : String) (outcome : ExecOutcome) :
    NodeRunResult :=
  match bb.plan.get? bb.step_index with
  | Option.none => ⟨Except.error "IndexError: list index out of range", bb, false⟩
  | some step0 =>
    let step := if pyFieldsTruthy step0 then step0 else .fnil
    if pyFieldsTruthy step = false then
      ⟨Except.ok ⟨FSMState.PLAN.value, .fnil⟩, bb, false⟩
    else
      let python_script := stripStr respText
      if python_script = "" then
        ⟨Except.ok ⟨FSMState.PLAN.value, .fcons "error" (.pystr "empty_python") .fnil⟩,
         bb, false⟩
      else
        let bb1 := { bb with python_script := python_script }
        match BaseNode.executeCode bb1 python_script outcome with
        | Except.error e => ⟨Except.error e, bb1, true⟩
        | Except.ok r =>
          let bb2 := bb1.update_from_result r
          ⟨Except.ok ⟨r.next_state, execPayload python_script r⟩, bb2, true⟩

/-- Does a stored `review` dict contain a high-severity issue entry? -/
def pyIssuesHaveHigh : PyList → Bool
  | .nil => false
  | .cons v tl =>
    (match v with
     | .pydict d =>
       (match d.get? "severity" with
        | some (.pystr s) => s == "high"
        | _ => false)
     | _ => false) || pyIssuesHaveHigh tl

/-- The `review.issues` list written to the blackboard has a high-severity entry. -/
def reviewHasHighIssue (review : PyFields) : Bool :=
  match review.get? "issues" with
  | some (.pylist l) => pyIssuesHaveHigh l
  | _ => false

/-! ### Concrete fixtures -/

/-- A fresh blackboard, as `Blackboard()` constructs it. -/
def bbInit : Blackboard := {}

/-- A one-key plan step. -/
def stepA : PyFields := .fcons "desc" (.pystr "a") .fnil

/-- Another one-key plan step. -/
def stepB : PyFields := .fcons "desc" (.pystr "b") .fnil

/-- A blackboard holding a plan of length 2 with `step_index = 1`. -/
def bbPlanTwoAtOne : Blackboard :=
  { plan := [stepA, stepB], step_index := 1, current_step := stepB }

/-- The output mapping `{"next_state": "RUN"}` of the missing-keys scenario. -/
def exampleMissingKeysDict : PyFields := .fcons "next_state" (.pystr "RUN") .fnil

/-- A complete output mapping carrying all four required keys. -/
def fullResultDict : PyFields :=
  .fcons "next_state" (.pystr "run")
    (.fcons "player_message" (.pystr "ok")
      (.fcons "observations" (.pystr "obs")
        (.fcons "next_step_hint" (.pystr "hint") .fnil)))

/-! ### Blackboard invariant -/

/--
The §3 Blackboard invariant: `current_step` equals
`plan[min(step_index, len(plan)-1)]` when the plan is non-empty and the
empty dict otherwise.
-/
def currentStepOK (bb : Blackboard) : Prop :=
  (bb.plan = [] → bb.current_step = .fnil) ∧
  (bb.plan ≠ [] →
    bb.current_step = bb.plan.getD (min bb.step_index (bb.plan.length - 1)) .fnil)

theorem recompute_establishes_invariant (bb : Blackboard) :
    currentStepOK (recomputeCurrentStep bb) := by
  unfold currentStepOK recomputeCurrentStep
  cases h : bb.plan with
  | nil => simp [h]
  | cons a l => simp [h]

/-! ### Claim theorems -/

/--
C1 (code bug evaluation): with a plan of length 2 and `step_index = 1`, the
call `transition("RUN")` does not advance to `DONE` — because line 49 of
fsm.py compares the lowercased token against the uppercase literal
`"RUN"`, the sentinel branch is unreachable and the call falls through to
`FSMState("run")`, which raises `ValueError`.
-/
theorem fsm_transition_run_raises_value_error :
    FSM.transition "action_gen" bbPlanTwoAtOne "RUN" =
      Except.error "ValueError: run is not a valid FSMState" := rfl

/--
C2: every completing `transition` call — all of which are direct-token
transitions, since the sentinel branch is unreachable — recomputes
`current_step` unconditionally, so afterwards `current_step` equals
`plan[min(step_index, len(plan)-1)]` when the plan is non-empty and the
empty dict otherwise.
-/
theorem fsm_transition_preserves_current_step (state : String) (bb : Blackboard)
    (nxt st' : String) (bb' : Blackboard)
    (h : FSM.transition state bb nxt = Except.ok (st', bb')) :
    currentStepOK bb' := by
  unfold FSM.transition at h
  split at h
  · simp only [Except.ok.injEq, Prod.mk.injEq] at h
    rw [← h.2]
    exact recompute_establishes_invariant _
  · split at h
    · exact absurd h (by simp)
    · simp only [Except.ok.injEq, Prod.mk.injEq] at h
      rw [← h.2]
      exact recompute_establishes_invariant _

/-- Witness for C2 at a concrete transition of a fresh blackboard. -/
theorem fsm_transition_preserves_current_step_witness : currentStepOK bbInit :=
  fsm_transition_preserves_current_step "observe" bbInit "plan" "plan" bbInit rfl

/--
C3 (code bug evaluation): the state vocabulary of `FSMState` lacks
`NEED_USER`, so `transition("NEED_USER")` raises `ValueError` instead of
setting the state, while the other direct tokens (e.g. `OBSERVE`, `STOP`)
do set the state without error.
-/
theorem fsm_transition_need_user_raises_value_error :
    FSM.transition "observe" bbInit "NEED_USER" =
      Except.error "ValueError: need_user is not a valid FSMState" ∧
    FSM.transition "observe" bbInit "OBSERVE" = Except.ok ("observe", bbInit) ∧
    FSM.transition "observe" bbInit "STOP" = Except.ok ("stop", bbInit) :=
  ⟨rfl, rfl, rfl⟩

/--
C4 (code bug evaluation): for every input text and error flag,
`_map_next_state` raises `AttributeError` — the `mapping` dict literal it
evaluates on every call reads `FSMState.NEED_USER.value`, and the enum
defines no `NEED_USER` member — so it never returns a state token at all.
-/
theorem map_next_state_always_raises_attribute_error (requested : String) (error : Bool)
    (default_success default_error : FSMState) :
    mapNextState requested error default_success default_error =
      Except.error "AttributeError: NEED_USER" := rfl

/--
C5 counterexample: for code raising `ZeroDivisionError` (text
`division by zero`), the failed result carries the exception text in
`error` — not the taxonomy string `"execution_error"`, which goes to
`next_step_hint` instead.
-/
theorem executor_error_field_not_execution_error :
    (PythonActionExecutor.execute (.raises "division by zero")).success = false ∧
    (PythonActionExecutor.execute (.raises "division by zero")).error =
      some "division by zero" ∧
    (PythonActionExecutor.execute (.raises "division by zero")).error ≠
      some "execution_error" ∧
    (PythonActionExecutor.execute (.raises "division by zero")).next_step_hint =
      "execution_error" :=
  ⟨rfl, rfl, by decide, rfl⟩

/--
C5 amended: for every code string whose execution raises, `execute` returns
a failed result with `success = False`, `next_state = "REVIEW"`,
`error` set to the exception text, `next_step_hint = "execution_error"`,
and the failure is never propagated as an exception to the caller.
-/
theorem executor_raises_result_fields (msg : String) :
    PythonActionExecutor.execute (.raises msg) =
      { success := false
        next_state := "REVIEW"
        player_message := "python execution failed: " ++ msg
        observations := ""
        next_step_hint := "execution_error"
        raw_result := Option.none
        error := some msg } := rfl

/--
C9 (code bug evaluation): on the blackboard state that the Plan phase
leaves behind after a malformed plan response — empty `plan`,
`step_index = 0`, empty `current_step` — `ActionGenNode.run` does not
bounce back to PLAN: line 23 of action_gen.py indexes `bb.plan[bb.step_index]`
before any emptiness check, raising `IndexError`.
-/
theorem action_gen_empty_plan_raises_index_error :
    ActionGenNode.run bbInit "print(1)" (ExecOutcome.raises "x") =
      ⟨Except.error "IndexError: list index out of range", bbInit, false⟩ := rfl

/--
C10: for every blackboard built by the `Blackboard` dataclass definition,
every call of the shared `_execute_code` helper (used by Observe,
ActionGen and Review re-execution) raises `AttributeError` instead of
returning an Execution Result, because `_build_executor` reads the
`runtime_globals` attribute that `Blackboard` does not define.
-/
theorem execute_code_always_attribute_error (bb : Blackboard) (code : String)
    (outcome : ExecOutcome) :
    BaseNode.executeCode bb code outcome =
      Except.error "AttributeError: Blackboard object has no attribute runtime_globals" :=
  rfl

/--
C6: for completed runs, a missing or non-dict `__result__` yields a failed
result with `error = "missing_result"` and `next_state = "REVIEW"`; an
output dict missing any required key yields `error = "result_missing_keys"`,
`next_state = "REVIEW"`, and the partial mapping as `raw_result`; in
particular the mapping `{"next_state": "RUN"}` yields
`error = "result_missing_keys"` with itself as `raw_result`.
-/
theorem executor_missing_result_and_missing_keys
    (rv : Option PyValue) (es : PyFields)
    (hrv : ∀ d, rv ≠ some (PyValue.pydict d))
    (hes : missingRequired es ≠ []) :
    ((PythonActionExecutor.execute (.completes rv)).error = some "missing_result" ∧
     (PythonActionExecutor.execute (.completes rv)).next_state = "REVIEW") ∧
    ((PythonActionExecutor.execute (.completes (some (.pydict es)))).error =
        some "result_missing_keys" ∧
     (PythonActionExecutor.execute (.completes (some (.pydict es)))).next_state =
        "REVIEW" ∧
     (PythonActionExecutor.execute (.completes (some (.pydict es)))).raw_result =
        some es) ∧
    ((PythonActionExecutor.execute
        (.completes (some (.pydict exampleMissingKeysDict)))).error =
        some "result_missing_keys" ∧
     (PythonActionExecutor.execute
        (.completes (some (.pydict exampleMissingKeysDict)))).raw_result =
        some exampleMissingKeysDict) := by
  refine ⟨?_, ?_, rfl, rfl⟩
  · cases rv with
    | none => exact ⟨rfl, rfl⟩
    | some v =>
      cases v with
      | pydict d => exact absurd rfl (hrv d)
      | pynone => exact ⟨rfl, rfl⟩
      | pybool b => exact ⟨rfl, rfl⟩
      | pyint n => exact ⟨rfl, rfl⟩
      | pystr s => exact ⟨rfl, rfl⟩
      | pylist l => exact ⟨rfl, rfl⟩
  · simp only [PythonActionExecutor.execute]
    rw [if_pos hes]
    exact ⟨rfl, rfl, rfl⟩

/-- Witness for C6 at `__result__` unset and at the mapping `{"next_state": "RUN"}`. -/
theorem executor_missing_result_and_missing_keys_witness :
    ((PythonActionExecutor.execute (.completes Option.none)).error =
        some "missing_result" ∧
     (PythonActionExecutor.execute (.completes Option.none)).next_state = "REVIEW") ∧
    ((PythonActionExecutor.execute
        (.completes (some (.pydict exampleMissingKeysDict)))).error =
        some "result_missing_keys" ∧
     (PythonActionExecutor.execute
        (.completes (some (.pydict exampleMissingKeysDict)))).next_state = "REVIEW" ∧
     (PythonActionExecutor.execute
        (.completes (some (.pydict exampleMissingKeysDict)))).raw_result =
        some exampleMissingKeysDict) ∧
    ((PythonActionExecutor.execute
        (.completes (some (.pydict exampleMissingKeysDict)))).error =
        some "result_missing_keys" ∧
     (PythonActionExecutor.execute
        (.completes (some (.pydict exampleMissingKeysDict)))).raw_result =
        some exampleMissingKeysDict) :=
  executor_missing_result_and_missing_keys Option.none exampleMissingKeysDict
    (fun d h => Option.noConfusion h) (by decide)

/--
C7 counterexample: a failed result produced by a raising execution carries
the exception text in `error`, which is none of the three taxonomy strings.
-/
theorem failed_result_error_not_in_taxonomy :
    (PythonActionExecutor.execute (.raises "boom")).success = false ∧
    (PythonActionExecutor.execute (.raises "boom")).error = some "boom" ∧
    (PythonActionExecutor.execute (.raises "boom")).error ≠ some "execution_error" ∧
    (PythonActionExecutor.execute (.raises "boom")).error ≠ some "missing_result" ∧
    (PythonActionExecutor.execute (.raises "boom")).error ≠ some "result_missing_keys" :=
  ⟨rfl, rfl, by decide, by decide, by decide⟩

/--
C7 amended: every result with `success = True` has `error` null,
`next_state` the uppercased (string-coerced, falsy-defaulted) requested
state, and `raw_result` the full output mapping without missing required
keys; every result with `success = False` has `error` equal to
`"missing_result"`, to `"result_missing_keys"`, or — for a raising
execution — to the exception text, with the taxonomy string
`"execution_error"` placed in `next_step_hint` instead.
-/
theorem executor_result_field_characterization (outcome : ExecOutcome) :
    ((PythonActionExecutor.execute outcome).success = true →
      (PythonActionExecutor.execute outcome).error = Option.none ∧
      ∃ es, outcome = ExecOutcome.completes (some (.pydict es)) ∧
        (PythonActionExecutor.execute outcome).raw_result = some es ∧
        missingRequired es = [] ∧
        (PythonActionExecutor.execute outcome).next_state =
          upperStr (pyStr (if pyTruthy (es.getD "next_state" (.pystr ""))
                           then es.getD "next_state" (.pystr "")
                           else .pystr ""))) ∧
    ((PythonActionExecutor.execute outcome).success = false →
      (PythonActionExecutor.execute outcome).error = some "missing_result" ∨
      (PythonActionExecutor.execute outcome).error = some "result_missing_keys" ∨
      ∃ msg, outcome = ExecOutcome.raises msg ∧
        (PythonActionExecutor.execute outcome).error = some msg ∧
        (PythonActionExecutor.execute outcome).next_step_hint = "execution_error") := by
  cases outcome with
  | raises msg =>
    refine ⟨fun h => absurd h (by simp [PythonActionExecutor.execute]), fun _ => ?_⟩
    exact Or.inr (Or.inr ⟨msg, rfl, rfl, rfl⟩)
  | completes rv =>
    cases rv with
    | none =>
      exact ⟨fun h => absurd h (by simp [PythonActionExecutor.execute]),
             fun _ => Or.inl rfl⟩
    | some v =>
      cases v with
      | pydict es =>
        by_cases hm : missingRequired es ≠ []
        · constructor
          · intro h
            simp only [PythonActionExecutor.execute] at h
            rw [if_pos hm] at h
            cases h
          · intro _
            refine Or.inr (Or.inl ?_)
            simp only [PythonActionExecutor.execute]
            rw [if_pos hm]
        · constructor
          · intro _
            refine ⟨?_, es, rfl, ?_, not_not.mp hm, ?_⟩ <;>
              · simp only [PythonActionExecutor.execute]
                rw [if_neg hm]
          · intro h
            simp only [PythonActionExecutor.execute] at h
            rw [if_neg hm] at h
            cases h
      | pynone =>
        exact ⟨fun h => absurd h (by simp [PythonActionExecutor.execute]),
               fun _ => Or.inl rfl⟩
      | pybool b =>
        exact ⟨fun h => absurd h (by simp [PythonActionExecutor.execute]),
               fun _ => Or.inl rfl⟩
      | pyint n =>
        exact ⟨fun h => absurd h (by simp [PythonActionExecutor.execute]),
               fun _ => Or.inl rfl⟩
      | pystr s =>
        exact ⟨fun h => absurd h (by simp [PythonActionExecutor.execute]),
               fun _ => Or.inl rfl⟩
      | pylist l =>
        exact ⟨fun h => absurd h (by simp [PythonActionExecutor.execute]),
               fun _ => Or.inl rfl⟩

/--
Witness for C7 at a complete success mapping and at a raising execution.
-/
theorem executor_result_field_characterization_witness :
    ((PythonActionExecutor.execute (.completes (some (.pydict fullResultDict)))).error =
        Option.none ∧
      ∃ es, ExecOutcome.completes (some (.pydict fullResultDict)) =
          ExecOutcome.completes (some (.pydict es)) ∧
        (PythonActionExecutor.execute
            (.completes (some (.pydict fullResultDict)))).raw_result = some es ∧
        missingRequired es = [] ∧
        (PythonActionExecutor.execute
            (.completes (some (.pydict fullResultDict)))).next_state =
          upperStr (pyStr (if pyTruthy (es.getD "next_state" (.pystr ""))
                           then es.getD "next_state" (.pystr "")
                           else .pystr ""))) ∧
    ((PythonActionExecutor.execute (.raises "boom2")).error = some "missing_result" ∨
     (PythonActionExecutor.execute (.raises "boom2")).error = some "result_missing_keys" ∨
     ∃ msg, ExecOutcome.raises "boom2" = ExecOutcome.raises msg ∧
       (PythonActionExecutor.execute (.raises "boom2")).error = some msg ∧
       (PythonActionExecutor.execute (.raises "boom2")).next_step_hint =
         "execution_error") :=
  ⟨(executor_result_field_characterization
      (.completes (some (.pydict fullResultDict)))).1 rfl,
   (executor_result_field_characterization (.raises "boom2")).2 rfl⟩

/-- An issue list containing a high-severity entry encodes to a review list
on which the high-severity check succeeds. -/
theorem encodeIssues_has_high (l : List Issue) (i : Issue) (hi : i ∈ l)
    (hs : i.severity = "high") : pyIssuesHaveHigh (encodeIssues l) = true := by
  induction l with
  | nil => cases hi
  | cons a tl ih =>
    cases hi with
    | head => simp [encodeIssues, pyIssuesHaveHigh, Issue.toPy, PyFields.get?, hs]
    | tail _ hmem => simp [encodeIssues, pyIssuesHaveHigh, ih hmem]

/-- A precheck input containing a banned token, or lacking the `__result__`
marker, yields at least one high-severity issue. -/
theorem precheck_bad_has_high (py : String)
    (hbad : bannedTokens.any (fun b => strContains (lowerStr py) b) = true ∨
            strContains py "__result__" = false) :
    ∃ i ∈ (localPrecheck py).2, i.severity = "high" := by
  simp only [localPrecheck]
  rcases hbad with h | h
  · obtain ⟨b, hb, hcont⟩ := List.any_eq_true.mp h
    refine ⟨Issue.mk "high" "safety" ("banned token detected: " ++ b), ?_, rfl⟩
    exact List.mem_append_left _
      (List.mem_map_of_mem _ (List.mem_filter.mpr ⟨hb, hcont⟩))
  · refine ⟨Issue.mk "high" "missing" "must set __result__", ?_, rfl⟩
    refine List.mem_append_right _ ?_
    simp [h]

/-- A high-severity issue in the list forces the precheck `ok` flag to be false. -/
theorem precheck_bad_not_ok (py : String)
    (hbad : bannedTokens.any (fun b => strContains (lowerStr py) b) = true ∨
            strContains py "__result__" = false) :
    (localPrecheck py).1 = false := by
  obtain ⟨i, hi, hs⟩ := precheck_bad_has_high py hbad
  have hfirst : (localPrecheck py).1 =
      (((localPrecheck py).2.filter (fun j => j.severity == "high")).length == 0) := rfl
  rw [hfirst]
  have hmem : i ∈ (localPrecheck py).2.filter (fun j => j.severity == "high") :=
    List.mem_filter.mpr ⟨hi, by simp [hs]⟩
  cases hf : (localPrecheck py).2.filter (fun j => j.severity == "high") with
  | nil => rw [hf] at hmem; cases hmem
  | cons a tl => rfl

/--
C8: for a non-empty patched-code response that contains a denylisted token
or lacks the `__result__` output-variable marker (with prior code present
on the blackboard), the Review phase short-circuits: it returns PLAN,
control never reaches the `_execute_code` helper, and the `review.issues`
written to the blackboard contains at least one high-severity entry.
-/
theorem review_precheck_short_circuits (bb : Blackboard) (respText : String)
    (outcome : ExecOutcome)
    (hcode : stripStr bb.python_script ≠ "")
    (hpatch : stripStr respText ≠ "")
    (hbad : bannedTokens.any (fun b => strContains (lowerStr (stripStr respText)) b) = true ∨
            strContains (stripStr respText) "__result__" = false) :
    (∃ payload, (ReviewNode.run bb respText outcome).res =
      Except.ok ⟨FSMState.PLAN.value, payload⟩) ∧
    (ReviewNode.run bb respText outcome).attemptedExec = false ∧
    reviewHasHighIssue (ReviewNode.run bb respText outcome).bb.review = true := by
  have hok : (localPrecheck (stripStr respText)).1 = false :=
    precheck_bad_not_ok (stripStr respText) hbad
  obtain ⟨i, hi, hs⟩ := precheck_bad_has_high (stripStr respText) hbad
  simp only [ReviewNode.run]
  rw [if_neg hcode, if_neg hpatch, if_pos hok]
  refine ⟨⟨_, rfl⟩, rfl, ?_⟩
  simp only [reviewHasHighIssue, PyFields.get?]
  exact encodeIssues_has_high _ i hi hs

/-- Blackboard holding prior generated code, for the C8 witness. -/
def bbReviewW : Blackboard := { python_script := "__result__ = 1" }

/--
Witness for C8: prior code present, patched response `import os` (a
denylisted token) — Review returns PLAN, never reaches the executor, and
records a high-severity issue.
-/
theorem review_precheck_short_circuits_witness :
    (∃ payload, (ReviewNode.run bbReviewW "import os" (ExecOutcome.raises "e")).res =
      Except.ok ⟨FSMState.PLAN.value, payload⟩) ∧
    (ReviewNode.run bbReviewW "import os" (ExecOutcome.raises "e")).attemptedExec = false ∧
    reviewHasHighIssue
      (ReviewNode.run bbReviewW "import os" (ExecOutcome.raises "e")).bb.review = true :=
  review_precheck_short_circuits bbReviewW "import os" (ExecOutcome.raises "e")
    (by decide) (by decide) (Or.inl (by decide))
